import Mathlib

/-!
Verification development for the ELSPORT repository: two symmetric
serverless CRUD handlers (`netlify/functions/tasks.js`,
`netlify/functions/tenders.js`) over Postgres tables, and the
client-side record transformers (`src/services/api.js`).

The JavaScript handlers are shallowly embedded as total Lean functions.
JSON scalar values are modelled by `JsonVal`; an absent object field is
`Option.none` (JavaScript `undefined`).  The database table is a list of
rows together with the id sequence and the server clock.  Storage and
pool accesses are recorded as an explicit `Effect` trace so that
statements of the form "never touches storage" are expressible.
Fallibility (a `JSON.parse` throw, a failing storage call) is made
explicit: the body of an event carries the outcome of `JSON.parse`, and
a Boolean fault oracle `dbFail` makes every `pool.query` call raise.
-/

/-- A JSON scalar value, as handled by the JavaScript code.  Numbers are
modelled as integers (no claim depends on float behaviour). -/
inductive JsonVal : Type
  | null : JsonVal
  | bool : Bool → JsonVal
  | num : Int → JsonVal
  | str : String → JsonVal
deriving DecidableEq, Repr

/-- JavaScript truthiness of a JSON scalar: `null`, `false`, `0` and the
empty string are falsy, everything else is truthy. -/
def jsTruthy : JsonVal → Bool
  | .null => false
  | .bool b => b
  | .num n => n != 0
  | .str s => s != ""

/-- JavaScript `v || d` over a possibly-absent value (`none` is
`undefined`, hence falsy). -/
def jsOr (v : Option JsonVal) (d : JsonVal) : JsonVal :=
  match v with
  | some x => if jsTruthy x then x else d
  | none => d

/-- JavaScript `!x` for the extracted path id: `null` and the empty
string are the falsy cases. -/
def idMissing : Option String → Bool
  | none => true
  | some s => s == ""

/-- Truthiness of `process.env.X`: falsy when the variable is unset
(`undefined`) or set to the empty string. -/
def envFalsy : Option String → Bool
  | none => true
  | some s => s == ""

/-- The last element of `path.split('/')`
(`pathParts[pathParts.length - 1]`): for the single-character separator
this is exactly the suffix of the path after its final `'/'` — the
whole path when it contains no slash — computed structurally over the
character list so that the kernel can evaluate it. -/
def lastSegment (path : String) : String :=
  String.mk ((path.data.reverse.takeWhile fun c => c != '/').reverse)

/-- Path-id extraction of both handlers:
`pathParts[pathParts.length - 1] !== resource ? ... : null`. -/
def extractId (path resource : String) : Option String :=
  if lastSegment path ≠ resource then some (lastSegment path) else none

/-- Observable interactions with the pg layer. -/
inductive Effect : Type
  | poolCreate : Effect
  | query : Effect
deriving DecidableEq, Repr

/-- Body of an HTTP response as serialized by the handlers. -/
inductive RespBody (ρ : Type) : Type
  | empty : RespBody ρ
  | rows : List ρ → RespBody ρ
  | row : ρ → RespBody ρ
  | jsonError : String → RespBody ρ
  | message : String → RespBody ρ
deriving DecidableEq, Repr

/-- An HTTP response (the constant CORS header set carried by every
response is not modelled; no claim concerns it). -/
structure Response (ρ : Type) : Type where
  statusCode : Nat
  body : RespBody ρ
deriving DecidableEq, Repr

/-- A stored row of the `tasks` table.  `Modelled from the spec:` the
table schema is not in the repository; per the spec, `id` is an
auto-generated key and `created_at`/`updated_at` are server-side
timestamps equal at insertion; nullable text columns hold the JSON
values the handler passes as statement parameters (`none` is SQL
NULL). -/
structure TaskRow : Type where
  id : Nat
  description : Option JsonVal
  assigned_to : Option JsonVal
  due_date : Option JsonVal
  status : Option JsonVal
  created_at : Nat
  updated_at : Nat
deriving DecidableEq, Repr

/-- A stored row of the `tenders` table (schema modelled as for
`TaskRow`). -/
structure TenderRow : Type where
  id : Nat
  tender_number : Option JsonVal
  description : Option JsonVal
  closing_date : Option JsonVal
  site_visits : Option JsonVal
  created_at : Nat
  updated_at : Nat
deriving DecidableEq, Repr

/-- Database state for one table: the stored rows, the id sequence, and
the server clock (`CURRENT_TIMESTAMP`). -/
structure Table (ρ : Type) : Type where
  rows : List ρ
  nextId : Nat
  now : Nat
deriving DecidableEq, Repr

/-- The destructured JSON body of a tasks POST/PUT request
(`{ description, assigned_to, due_date, status }`); `none` is an absent
field. -/
structure TaskBody : Type where
  description : Option JsonVal
  assigned_to : Option JsonVal
  due_date : Option JsonVal
  status : Option JsonVal
deriving DecidableEq, Repr

/-- The destructured JSON body of a tenders POST/PUT request
(`{ tender_number, description, closing_date, site_visits }`). -/
structure TenderBody : Type where
  tender_number : Option JsonVal
  description : Option JsonVal
  closing_date : Option JsonVal
  site_visits : Option JsonVal
deriving DecidableEq, Repr

/-- An inbound event as the handlers consume it.  `body` carries the
outcome of `JSON.parse(event.body)` destructured into the known fields:
`Except.error ()` is a parse throw (malformed JSON).  The parse is only
performed (and its outcome only consulted) in the POST and PUT
branches, as in the source. -/
structure Event (β : Type) : Type where
  httpMethod : String
  path : String
  body : Except Unit β
deriving Repr

/-- A decimal digit character, by code point. -/
def isDigitChar (c : Char) : Bool :=
  48 ≤ c.toNat && c.toNat ≤ 57

/-- Accumulating decimal value of a character list; `none` on any
non-digit. -/
def decValAux : List Char → Nat → Option Nat
  | [], n => some n
  | c :: cs, n =>
      if isDigitChar c then decValAux cs (n * 10 + (c.toNat - 48)) else none

/-- The natural number a string denotes in decimal (`none` when empty
or containing a non-digit), computed structurally so that the kernel
can evaluate it. -/
def strToNat? (s : String) : Option Nat :=
  match s.data with
  | [] => none
  | cs => decValAux cs 0

/-- `WHERE id = $k` with the path-id string bound to an integer id
column: the row matches when the string denotes the row's id. -/
def idMatches (idStr : String) (rowId : Nat) : Bool :=
  strToNat? idStr == some rowId

/-- Descending creation-time order used by
`SELECT * FROM ... ORDER BY created_at DESC`. -/
def createdGe (a b : Nat) : Prop := b ≤ a

instance : DecidableRel createdGe := fun a b => Nat.decLe b a

/-- Newest-first order on task rows. -/
def taskNewerFirst (a b : TaskRow) : Prop := createdGe a.created_at b.created_at

instance : DecidableRel taskNewerFirst := fun a b => Nat.decLe b.created_at a.created_at

instance : IsTotal TaskRow taskNewerFirst :=
  ⟨fun a b => Nat.le_total b.created_at a.created_at⟩

instance : IsTrans TaskRow taskNewerFirst :=
  ⟨fun _ _ _ h1 h2 => Nat.le_trans h2 h1⟩

/-- Newest-first order on tender rows. -/
def tenderNewerFirst (a b : TenderRow) : Prop := createdGe a.created_at b.created_at

instance : DecidableRel tenderNewerFirst := fun a b => Nat.decLe b.created_at a.created_at

instance : IsTotal TenderRow tenderNewerFirst :=
  ⟨fun a b => Nat.le_total b.created_at a.created_at⟩

instance : IsTrans TenderRow tenderNewerFirst :=
  ⟨fun _ _ _ h1 h2 => Nat.le_trans h2 h1⟩

/-- `SELECT * FROM tasks ORDER BY created_at DESC`. -/
def selectTasksOrdered (rows : List TaskRow) : List TaskRow :=
  rows.insertionSort taskNewerFirst

/-- `SELECT * FROM tenders ORDER BY created_at DESC`. -/
def selectTendersOrdered (rows : List TenderRow) : List TenderRow :=
  rows.insertionSort tenderNewerFirst

/-- Row built by the tasks INSERT: the four statement parameters, with
`status || 'PENDING'`, plus the server-assigned id and timestamps. -/
def insertTaskRow (b : TaskBody) (db : Table TaskRow) : TaskRow :=
  { id := db.nextId
    description := b.description
    assigned_to := b.assigned_to
    due_date := b.due_date
    status := some (jsOr b.status (.str "PENDING"))
    created_at := db.now
    updated_at := db.now }

/-- Row built by the tenders INSERT (no defaulting of any field). -/
def insertTenderRow (b : TenderBody) (db : Table TenderRow) : TenderRow :=
  { id := db.nextId
    tender_number := b.tender_number
    description := b.description
    closing_date := b.closing_date
    site_visits := b.site_visits
    created_at := db.now
    updated_at := db.now }

/-- Effect of the tasks UPDATE statement on one matching row: all four
mutable columns overwritten from the body, `updated_at` refreshed. -/
def applyTaskUpdate (b : TaskBody) (now : Nat) (r : TaskRow) : TaskRow :=
  { r with
    description := b.description
    assigned_to := b.assigned_to
    due_date := b.due_date
    status := b.status
    updated_at := now }

/-- Effect of the tenders UPDATE statement on one matching row. -/
def applyTenderUpdate (b : TenderBody) (now : Nat) (r : TenderRow) : TenderRow :=
  { r with
    tender_number := b.tender_number
    description := b.description
    closing_date := b.closing_date
    site_visits := b.site_visits
    updated_at := now }

/-- `UPDATE tasks SET ... WHERE id = $5 RETURNING *`: the new table and
the list of updated rows. -/
def runTaskUpdate (b : TaskBody) (idStr : String) (db : Table TaskRow) :
    Table TaskRow × List TaskRow :=
  ({ db with
      rows := db.rows.map fun r =>
        if idMatches idStr r.id then applyTaskUpdate b db.now r else r },
   (db.rows.filter fun r => idMatches idStr r.id).map (applyTaskUpdate b db.now))

/-- `UPDATE tenders SET ... WHERE id = $5 RETURNING *`. -/
def runTenderUpdate (b : TenderBody) (idStr : String) (db : Table TenderRow) :
    Table TenderRow × List TenderRow :=
  ({ db with
      rows := db.rows.map fun r =>
        if idMatches idStr r.id then applyTenderUpdate b db.now r else r },
   (db.rows.filter fun r => idMatches idStr r.id).map (applyTenderUpdate b db.now))

/-- `DELETE FROM t WHERE id = $1 RETURNING *`: the new table and the
deleted rows (generic in the row type through an id projection). -/
def runDelete {ρ : Type} (rowId : ρ → Nat) (idStr : String) (db : Table ρ) :
    Table ρ × List ρ :=
  ({ db with rows := db.rows.filter fun r => !(idMatches idStr (rowId r)) },
   db.rows.filter fun r => idMatches idStr (rowId r))

/-- The `try`-scope of the tasks handler (`tasks.js`, lines 21-108):
dispatch on the method, run at most one statement, shape the response.
`Except.error ()` is a throw reaching the `catch`; the effect trace
lists the pg calls issued before the outcome.  A failing statement
(`dbFail`) changes no rows, so the error outcome carries no table. -/
def tasksTry (ev : Event TaskBody) (dbFail : Bool) (db : Table TaskRow) :
    Except Unit (Response TaskRow × Table TaskRow) × List Effect :=
  let id := extractId ev.path "tasks"
  match ev.httpMethod with
  | "GET" =>
      if dbFail then (.error (), [.query])
      else (.ok ({ statusCode := 200, body := .rows (selectTasksOrdered db.rows) }, db),
            [.query])
  | "POST" =>
      match ev.body with
      | .error _ => (.error (), [])
      | .ok b =>
          if dbFail then (.error (), [.query])
          else
            let r := insertTaskRow b db
            (.ok ({ statusCode := 201, body := .row r },
                  { db with rows := db.rows ++ [r], nextId := db.nextId + 1 }),
             [.query])
  | "PUT" =>
      if idMissing id then
        (.ok ({ statusCode := 400, body := .jsonError "ID is required for update" }, db), [])
      else
        match ev.body with
        | .error _ => (.error (), [])
        | .ok b =>
            if dbFail then (.error (), [.query])
            else
              let res := runTaskUpdate b (id.getD "") db
              match res.2 with
              | [] => (.ok ({ statusCode := 404, body := .jsonError "Task not found" },
                            res.1), [.query])
              | r :: _ => (.ok ({ statusCode := 200, body := .row r }, res.1), [.query])
  | "DELETE" =>
      if idMissing id then
        (.ok ({ statusCode := 400, body := .jsonError "ID is required for delete" }, db), [])
      else
        if dbFail then (.error (), [.query])
        else
          let res := runDelete TaskRow.id (id.getD "") db
          match res.2 with
          | [] => (.ok ({ statusCode := 404, body := .jsonError "Task not found" },
                        res.1), [.query])
          | _ :: _ => (.ok ({ statusCode := 200,
                              body := .message "Task deleted successfully" }, res.1),
                       [.query])
  | _ => (.ok ({ statusCode := 405, body := .jsonError "Method not allowed" }, db), [])

/-- The tasks handler (`tasks.js`): the OPTIONS branch answers before
the `try`, and the `catch` turns any throw into the generic 500. -/
def tasksHandler (ev : Event TaskBody) (dbFail : Bool) (db : Table TaskRow) :
    Response TaskRow × Table TaskRow × List Effect :=
  if ev.httpMethod == "OPTIONS" then
    ({ statusCode := 200, body := .empty }, db, [])
  else
    match tasksTry ev dbFail db with
    | (.ok (resp, db'), fx) => (resp, db', fx)
    | (.error _, fx) =>
        ({ statusCode := 500, body := .jsonError "Internal server error" }, db, fx)

/-- Module-load effects of `tasks.js`: `new Pool({ connectionString:
process.env.DATABASE_URL })` runs unconditionally, whatever the
environment holds (pg pool construction is lazy and does not throw). -/
def tasksModuleInit (_ : Option String) : List Effect :=
  [.poolCreate]

/-- A request to the tasks function as deployed: module-load pool
creation followed by the handler. -/
def tasksService (databaseUrl : Option String) (ev : Event TaskBody) (dbFail : Bool)
    (db : Table TaskRow) : Response TaskRow × Table TaskRow × List Effect :=
  let h := tasksHandler ev dbFail db
  (h.1, h.2.1, tasksModuleInit databaseUrl ++ h.2.2)

/-- The `try`-scope of the tenders handler (`tenders.js`, lines
52-139), mirroring `tasksTry` with the tender columns and messages. -/
def tendersTry (ev : Event TenderBody) (dbFail : Bool) (db : Table TenderRow) :
    Except Unit (Response TenderRow × Table TenderRow) × List Effect :=
  let id := extractId ev.path "tenders"
  match ev.httpMethod with
  | "GET" =>
      if dbFail then (.error (), [.query])
      else (.ok ({ statusCode := 200, body := .rows (selectTendersOrdered db.rows) }, db),
            [.query])
  | "POST" =>
      match ev.body with
      | .error _ => (.error (), [])
      | .ok b =>
          if dbFail then (.error (), [.query])
          else
            let r := insertTenderRow b db
            (.ok ({ statusCode := 201, body := .row r },
                  { db with rows := db.rows ++ [r], nextId := db.nextId + 1 }),
             [.query])
  | "PUT" =>
      if idMissing id then
        (.ok ({ statusCode := 400, body := .jsonError "ID is required for update" }, db), [])
      else
        match ev.body with
        | .error _ => (.error (), [])
        | .ok b =>
            if dbFail then (.error (), [.query])
            else
              let res := runTenderUpdate b (id.getD "") db
              match res.2 with
              | [] => (.ok ({ statusCode := 404, body := .jsonError "Tender not found" },
                            res.1), [.query])
              | r :: _ => (.ok ({ statusCode := 200, body := .row r }, res.1), [.query])
  | "DELETE" =>
      if idMissing id then
        (.ok ({ statusCode := 400, body := .jsonError "ID is required for delete" }, db), [])
      else
        if dbFail then (.error (), [.query])
        else
          let res := runDelete TenderRow.id (id.getD "") db
          match res.2 with
          | [] => (.ok ({ statusCode := 404, body := .jsonError "Tender not found" },
                        res.1), [.query])
          | _ :: _ => (.ok ({ statusCode := 200,
                              body := .message "Tender deleted successfully" }, res.1),
                       [.query])
  | _ => (.ok ({ statusCode := 405, body := .jsonError "Method not allowed" }, db), [])

/-- Body of the tenders handler after the lazy pool block: OPTIONS
branch, then `try`/`catch` dispatch.  `poolUp` is the pool state handed
back to the next request, `fx0` the effects of the pool block. -/
def tendersMain (ev : Event TenderBody) (dbFail : Bool) (db : Table TenderRow)
    (poolUp : Bool) (fx0 : List Effect) :
    Response TenderRow × Table TenderRow × Bool × List Effect :=
  if ev.httpMethod == "OPTIONS" then
    ({ statusCode := 200, body := .empty }, db, poolUp, fx0)
  else
    match tendersTry ev dbFail db with
    | (.ok (resp, db'), fx) => (resp, db', poolUp, fx0 ++ fx)
    | (.error _, fx) =>
        ({ statusCode := 500, body := .jsonError "Internal server error" }, db, poolUp,
         fx0 ++ fx)

/-- The tenders handler (`tenders.js`): the pool is lazily created
inside the handler, before everything else.  On a first request
(`poolInit = false`) a falsy `DATABASE_URL` yields the 500
configuration error before even the OPTIONS branch; otherwise
`new Pool(...)` is invoked inside its own `try` — a throw there
(modelled by the `poolFail` oracle; the `Effect.poolCreate` entry marks
the constructor invocation, which performs no connection) is answered
with the 500 `"Database connection error"` response and leaves the pool
unset; on success dispatch proceeds with the pool up. -/
def tendersHandler (databaseUrl : Option String) (poolInit poolFail : Bool)
    (ev : Event TenderBody) (dbFail : Bool) (db : Table TenderRow) :
    Response TenderRow × Table TenderRow × Bool × List Effect :=
  if !poolInit then
    if envFalsy databaseUrl then
      ({ statusCode := 500, body := .jsonError "Database configuration error" },
       db, false, [])
    else if poolFail then
      ({ statusCode := 500, body := .jsonError "Database connection error" },
       db, false, [.poolCreate])
    else
      tendersMain ev dbFail db true [.poolCreate]
  else
    tendersMain ev dbFail db poolInit []

/-- A tender record as fetched from the wire (snake_case JSON object);
SQL NULL arrives as JSON `null`, so every field holds a `JsonVal`. -/
structure DbTender : Type where
  id : JsonVal
  tender_number : JsonVal
  description : JsonVal
  closing_date : JsonVal
  site_visits : JsonVal
  created_at : JsonVal
  updated_at : JsonVal
deriving DecidableEq, Repr

/-- A task record as fetched from the wire. -/
structure DbTask : Type where
  id : JsonVal
  description : JsonVal
  assigned_to : JsonVal
  due_date : JsonVal
  status : JsonVal
  created_at : JsonVal
  updated_at : JsonVal
deriving DecidableEq, Repr

/-- A tender in the UI's camelCase format, as produced by
`transformTender`. -/
structure UiTender : Type where
  id : JsonVal
  tenderNumber : JsonVal
  description : JsonVal
  closingDate : JsonVal
  siteVisits : JsonVal
  createdAt : JsonVal
deriving DecidableEq, Repr

/-- A task in the UI's camelCase format, as produced by
`transformTask`. -/
structure UiTask : Type where
  id : JsonVal
  description : JsonVal
  assignedTo : JsonVal
  dueDate : JsonVal
  status : JsonVal
  createdAt : JsonVal
deriving DecidableEq, Repr

/-- `transformTender` (`api.js` lines 116-125): storage naming to UI
naming. -/
def transformTender (dbTender : DbTender) : UiTender :=
  { id := dbTender.id
    tenderNumber := dbTender.tender_number
    description := dbTender.description
    closingDate := dbTender.closing_date
    siteVisits := dbTender.site_visits
    createdAt := dbTender.created_at }

/-- `transformTask` (`api.js` lines 127-136). -/
def transformTask (dbTask : DbTask) : UiTask :=
  { id := dbTask.id
    description := dbTask.description
    assignedTo := dbTask.assigned_to
    dueDate := dbTask.due_date
    status := dbTask.status
    createdAt := dbTask.created_at }

/-- The JSON body `tenderAPI.update` (and `create`) builds from a UI
tender: the reverse, camelCase-to-snake_case transform over the
client-writable fields. -/
def tenderUpdateBody (tender : UiTender) : TenderBody :=
  { tender_number := some tender.tenderNumber
    description := some tender.description
    closing_date := some tender.closingDate
    site_visits := some tender.siteVisits }

/-- The JSON body `taskAPI.update` (and `create`) builds from a UI
task. -/
def taskUpdateBody (task : UiTask) : TaskBody :=
  { description := some task.description
    assigned_to := some task.assignedTo
    due_date := some task.dueDate
    status := some task.status }

/-- A list mapped by a function that moves no element is unchanged. -/
theorem map_eq_self_of_no_match {α : Type} (p : α → Bool) (f : α → α) (l : List α)
    (h : ∀ a ∈ l, p a = false) :
    (l.map fun a => if p a then f a else a) = l := by
  have : ∀ a ∈ l, (fun a => if p a then f a else a) a = id a := by
    intro a ha
    simp [h a ha]
  rw [List.map_congr_left this, List.map_id]

/-- A list filtered by a predicate rejecting no element is unchanged. -/
theorem filter_eq_self_of_no_match {α : Type} (p : α → Bool) (l : List α)
    (h : ∀ a ∈ l, p a = false) :
    (l.filter fun a => !p a) = l := by
  rw [List.filter_eq_self]
  intro a ha
  simp [h a ha]

/-- C2: fetching a record, transforming it to the UI format, and
feeding it through the reverse transform of an update request
reproduces the original storage field values on every client-writable
field (`id`, `created_at`, `updated_at` are never sent back); both
transforms are pure total Lean functions over every known field. -/
theorem c2_transform_roundtrip :
    (∀ r : DbTender,
        (tenderUpdateBody (transformTender r)).tender_number = some r.tender_number ∧
        (tenderUpdateBody (transformTender r)).description = some r.description ∧
        (tenderUpdateBody (transformTender r)).closing_date = some r.closing_date ∧
        (tenderUpdateBody (transformTender r)).site_visits = some r.site_visits) ∧
    (∀ r : DbTask,
        (taskUpdateBody (transformTask r)).description = some r.description ∧
        (taskUpdateBody (transformTask r)).assigned_to = some r.assigned_to ∧
        (taskUpdateBody (transformTask r)).due_date = some r.due_date ∧
        (taskUpdateBody (transformTask r)).status = some r.status) :=
  ⟨fun _ => ⟨rfl, rfl, rfl, rfl⟩, fun _ => ⟨rfl, rfl, rfl, rfl⟩⟩

/-- C5: a POST to the tasks handler whose body omits `status` stores
and returns, with code 201, a row whose status is `"PENDING"`, whose
other fields are the input fields, and whose server-assigned
`created_at` and `updated_at` coincide (both the server clock), with
the id from the sequence; the row is appended to the table. -/
theorem c5_post_default_status (path : String) (d a dd : Option JsonVal)
    (db : Table TaskRow) :
    tasksHandler ⟨"POST", path, .ok ⟨d, a, dd, none⟩⟩ false db =
      ({ statusCode := 201,
         body := .row
           { id := db.nextId, description := d, assigned_to := a, due_date := dd,
             status := some (.str "PENDING"), created_at := db.now,
             updated_at := db.now } },
       { db with
           rows := db.rows ++
             [{ id := db.nextId, description := d, assigned_to := a, due_date := dd,
                status := some (.str "PENDING"), created_at := db.now,
                updated_at := db.now }],
           nextId := db.nextId + 1 },
       [.query]) := by
  simp [tasksHandler, tasksTry, insertTaskRow, jsOr]

/-- C9: a POST to the tasks handler whose parsed body carries a falsy
`status` value (not only an absent one) stores and returns status
`"PENDING"`, because the default is `status || 'PENDING'`; a PUT
applies no such defaulting — the returned updated row carries the
body's status as-is. -/
theorem c9_falsy_status :
    (∀ (v : JsonVal) (path : String) (d a dd : Option JsonVal) (db : Table TaskRow),
        jsTruthy v = false →
        (tasksHandler ⟨"POST", path, .ok ⟨d, a, dd, some v⟩⟩ false db).1 =
          { statusCode := 201,
            body := .row { id := db.nextId, description := d, assigned_to := a,
                           due_date := dd, status := some (.str "PENDING"),
                           created_at := db.now, updated_at := db.now } }) ∧
    (∀ (b : TaskBody) (path : String) (db : Table TaskRow) (r : TaskRow),
        (tasksHandler ⟨"PUT", path, .ok b⟩ false db).1.body = .row r →
        r.status = b.status) := by
  constructor
  · intro v path d a dd db hv
    simp [tasksHandler, tasksTry, insertTaskRow, jsOr, hv]
  · intro b path db r h
    by_cases hid : idMissing (extractId path "tasks") = true
    · simp [tasksHandler, tasksTry, hid] at h
    · rw [Bool.not_eq_true] at hid
      cases hm : db.rows.filter fun row => idMatches ((extractId path "tasks").getD "") row.id with
      | nil =>
          simp [tasksHandler, tasksTry, hid, runTaskUpdate, hm] at h
      | cons r0 rest =>
          simp [tasksHandler, tasksTry, hid, runTaskUpdate, hm] at h
          rw [← h]
          rfl

/-- C10: a PUT or DELETE whose path ends in a trailing slash has the
empty string as its last path segment; the extracted id is then the
empty string, which both handlers treat as a missing id, answering 400
with the "ID is required" error, issuing no storage call, and leaving
the table unchanged. -/
theorem c10_trailing_slash :
    (∀ (path : String) (bd : Except Unit TaskBody) (dbFail : Bool) (db : Table TaskRow),
        lastSegment path = "" →
        extractId path "tasks" = some "" ∧
        tasksHandler ⟨"PUT", path, bd⟩ dbFail db =
          ({ statusCode := 400, body := .jsonError "ID is required for update" }, db, []) ∧
        tasksHandler ⟨"DELETE", path, bd⟩ dbFail db =
          ({ statusCode := 400, body := .jsonError "ID is required for delete" }, db, [])) ∧
    (∀ (url : Option String) (pf : Bool) (path : String) (bd : Except Unit TenderBody)
        (dbFail : Bool) (db : Table TenderRow),
        lastSegment path = "" →
        extractId path "tenders" = some "" ∧
        tendersHandler url true pf ⟨"PUT", path, bd⟩ dbFail db =
          ({ statusCode := 400, body := .jsonError "ID is required for update" },
           db, true, []) ∧
        tendersHandler url true pf ⟨"DELETE", path, bd⟩ dbFail db =
          ({ statusCode := 400, body := .jsonError "ID is required for delete" },
           db, true, [])) := by
  constructor
  · intro path bd dbFail db h
    refine ⟨by simp [extractId, h], ?_, ?_⟩
    · simp [tasksHandler, tasksTry, extractId, h, idMissing]
    · simp [tasksHandler, tasksTry, extractId, h, idMissing]
  · intro url pf path bd dbFail db h
    refine ⟨by simp [extractId, h], ?_, ?_⟩
    · simp [tendersHandler, tendersMain, tendersTry, extractId, h, idMissing]
    · simp [tendersHandler, tendersMain, tendersTry, extractId, h, idMissing]

/-- Witness for C9 at concrete inputs: POST with `status: ""` yields
status `"PENDING"`; PUT with `status: ""` on a matching row returns
status `""`. -/
theorem c9_falsy_status_witness :
    (tasksHandler ⟨"POST", "/tasks", .ok ⟨some (.str "d"), some (.str "a"),
        some (.str "2025-01-01"), some (.str "")⟩⟩ false
        { rows := [], nextId := 1, now := 5 }).1 =
      { statusCode := 201,
        body := .row { id := 1, description := some (.str "d"),
                       assigned_to := some (.str "a"),
                       due_date := some (.str "2025-01-01"),
                       status := some (.str "PENDING"),
                       created_at := 5, updated_at := 5 } } ∧
    ∀ r : TaskRow,
      (tasksHandler ⟨"PUT", "/tasks/1", .ok ⟨some (.str "d"), some (.str "a"),
          some (.str "2025-01-01"), some (.str "")⟩⟩ false
          { rows := [{ id := 1, description := none, assigned_to := none,
                       due_date := none, status := some (.str "SENT"),
                       created_at := 0, updated_at := 0 }],
            nextId := 2, now := 5 }).1.body = .row r →
      r.status = some (.str "") :=
  ⟨c9_falsy_status.1 (.str "") "/tasks" (some (.str "d")) (some (.str "a"))
      (some (.str "2025-01-01")) { rows := [], nextId := 1, now := 5 } (by decide),
   fun r h => c9_falsy_status.2 _ "/tasks/1" _ r h⟩

/-- Witness for C10 at the concrete paths `/tasks/` and `/tenders/`. -/
theorem c10_trailing_slash_witness :
    (extractId "/tasks/" "tasks" = some "" ∧
      tasksHandler ⟨"PUT", "/tasks/", .ok ⟨none, none, none, none⟩⟩ false
          { rows := [], nextId := 1, now := 0 } =
        ({ statusCode := 400, body := .jsonError "ID is required for update" },
         { rows := [], nextId := 1, now := 0 }, [])) ∧
    (extractId "/tenders/" "tenders" = some "" ∧
      tendersHandler (some "postgres:db") true false
          ⟨"DELETE", "/tenders/", .ok ⟨none, none, none, none⟩⟩ false
          { rows := [], nextId := 1, now := 0 } =
        ({ statusCode := 400, body := .jsonError "ID is required for delete" },
         { rows := [], nextId := 1, now := 0 }, true, [])) :=
  ⟨⟨(c10_trailing_slash.1 "/tasks/" (.ok ⟨none, none, none, none⟩) false
        { rows := [], nextId := 1, now := 0 } (by decide)).1,
    (c10_trailing_slash.1 "/tasks/" (.ok ⟨none, none, none, none⟩) false
        { rows := [], nextId := 1, now := 0 } (by decide)).2.1⟩,
   ⟨(c10_trailing_slash.2 (some "postgres:db") false "/tenders/"
        (.ok ⟨none, none, none, none⟩) false { rows := [], nextId := 1, now := 0 }
        (by decide)).1,
    (c10_trailing_slash.2 (some "postgres:db") false "/tenders/"
        (.ok ⟨none, none, none, none⟩) false { rows := [], nextId := 1, now := 0 }
        (by decide)).2.2⟩⟩

/-- A PUT on the tasks handler whose well-separated, non-empty path id
matches no stored row: 404 and an unchanged table. -/
theorem tasksPut_noMatch (path s : String) (b : TaskBody) (db : Table TaskRow)
    (hs : extractId path "tasks" = some s) (hne : s ≠ "")
    (hnm : ∀ r ∈ db.rows, idMatches s r.id = false) :
    tasksHandler ⟨"PUT", path, .ok b⟩ false db =
      ({ statusCode := 404, body := .jsonError "Task not found" }, db, [.query]) := by
  have hid : idMissing (some s) = false := by
    simpa [idMissing] using hne
  have hfil : (db.rows.filter fun r => idMatches s r.id) = [] :=
    List.filter_eq_nil_iff.mpr (by intro r hr; simp [hnm r hr])
  have hmap :
      (db.rows.map fun r => if idMatches s r.id then applyTaskUpdate b db.now r else r) =
        db.rows :=
    map_eq_self_of_no_match _ _ _ hnm
  simp [tasksHandler, tasksTry, hid, runTaskUpdate, hs, hfil, hmap]

/-- A PUT on the tenders handler whose non-empty path id matches no
stored row: 404 and an unchanged table. -/
theorem tendersPut_noMatch (url : Option String) (pf : Bool) (path s : String)
    (b : TenderBody) (db : Table TenderRow)
    (hs : extractId path "tenders" = some s) (hne : s ≠ "")
    (hnm : ∀ r ∈ db.rows, idMatches s r.id = false) :
    tendersHandler url true pf ⟨"PUT", path, .ok b⟩ false db =
      ({ statusCode := 404, body := .jsonError "Tender not found" }, db, true, [.query]) := by
  have hid : idMissing (some s) = false := by
    simpa [idMissing] using hne
  have hfil : (db.rows.filter fun r => idMatches s r.id) = [] :=
    List.filter_eq_nil_iff.mpr (by intro r hr; simp [hnm r hr])
  have hmap :
      (db.rows.map fun r => if idMatches s r.id then applyTenderUpdate b db.now r else r) =
        db.rows :=
    map_eq_self_of_no_match _ _ _ hnm
  simp [tendersHandler, tendersMain, tendersTry, hid, runTenderUpdate, hs, hfil, hmap]

/-- C1: a PUT to either resource handler carrying a non-empty path id
that matches no stored row returns 404 and leaves the table unchanged —
no row is inserted, deleted, or modified. -/
theorem c1_put_missing_row :
    (∀ (path s : String) (b : TaskBody) (db : Table TaskRow),
        extractId path "tasks" = some s → s ≠ "" →
        (∀ r ∈ db.rows, idMatches s r.id = false) →
        tasksHandler ⟨"PUT", path, .ok b⟩ false db =
          ({ statusCode := 404, body := .jsonError "Task not found" }, db, [.query])) ∧
    (∀ (url : Option String) (pf : Bool) (path s : String) (b : TenderBody)
        (db : Table TenderRow),
        extractId path "tenders" = some s → s ≠ "" →
        (∀ r ∈ db.rows, idMatches s r.id = false) →
        tendersHandler url true pf ⟨"PUT", path, .ok b⟩ false db =
          ({ statusCode := 404, body := .jsonError "Tender not found" }, db, true,
           [.query])) :=
  ⟨tasksPut_noMatch, tendersPut_noMatch⟩

/-- Witness for C1: updating id 99 in a one-row table (row id 1)
returns 404 and the table is unchanged, for both resources. -/
theorem c1_put_missing_row_witness :
    tasksHandler ⟨"PUT", "/tasks/99", .ok ⟨some (.str "d"), none, none, none⟩⟩ false
        { rows := [{ id := 1, description := none, assigned_to := none, due_date := none,
                     status := none, created_at := 0, updated_at := 0 }],
          nextId := 2, now := 7 } =
      ({ statusCode := 404, body := .jsonError "Task not found" },
       { rows := [{ id := 1, description := none, assigned_to := none, due_date := none,
                    status := none, created_at := 0, updated_at := 0 }],
         nextId := 2, now := 7 }, [.query]) ∧
    tendersHandler none true false ⟨"PUT", "/tenders/99", .ok ⟨none, none, none, none⟩⟩
        false
        { rows := [], nextId := 1, now := 0 } =
      ({ statusCode := 404, body := .jsonError "Tender not found" },
       { rows := [], nextId := 1, now := 0 }, true, [.query]) :=
  ⟨c1_put_missing_row.1 "/tasks/99" "99" ⟨some (.str "d"), none, none, none⟩ _
      (by decide) (by decide) (by decide),
   c1_put_missing_row.2 none false "/tenders/99" "99" ⟨none, none, none, none⟩ _
      (by decide) (by decide) (by decide)⟩

/-- A DELETE on the tasks handler whose non-empty path id matches no
stored row: 404 and an unchanged table. -/
theorem tasksDelete_noMatch (path s : String) (bd : Except Unit TaskBody)
    (db : Table TaskRow)
    (hs : extractId path "tasks" = some s) (hne : s ≠ "")
    (hnm : ∀ r ∈ db.rows, idMatches s r.id = false) :
    tasksHandler ⟨"DELETE", path, bd⟩ false db =
      ({ statusCode := 404, body := .jsonError "Task not found" }, db, [.query]) := by
  have hid : idMissing (some s) = false := by
    simpa [idMissing] using hne
  have hfil : (db.rows.filter fun r => idMatches s r.id) = [] :=
    List.filter_eq_nil_iff.mpr (by intro r hr; simp [hnm r hr])
  have hkeep : (db.rows.filter fun r => !idMatches s r.id) = db.rows :=
    filter_eq_self_of_no_match _ _ hnm
  simp [tasksHandler, tasksTry, hid, runDelete, hs, hfil, hkeep]

/-- A DELETE on the tenders handler whose non-empty path id matches no
stored row: 404 and an unchanged table. -/
theorem tendersDelete_noMatch (url : Option String) (pf : Bool) (path s : String)
    (bd : Except Unit TenderBody) (db : Table TenderRow)
    (hs : extractId path "tenders" = some s) (hne : s ≠ "")
    (hnm : ∀ r ∈ db.rows, idMatches s r.id = false) :
    tendersHandler url true pf ⟨"DELETE", path, bd⟩ false db =
      ({ statusCode := 404, body := .jsonError "Tender not found" }, db, true,
       [.query]) := by
  have hid : idMissing (some s) = false := by
    simpa [idMissing] using hne
  have hfil : (db.rows.filter fun r => idMatches s r.id) = [] :=
    List.filter_eq_nil_iff.mpr (by intro r hr; simp [hnm r hr])
  have hkeep : (db.rows.filter fun r => !idMatches s r.id) = db.rows :=
    filter_eq_self_of_no_match _ _ hnm
  simp [tendersHandler, tendersMain, tendersTry, hid, runDelete, hs, hfil, hkeep]

/-- A DELETE on the tasks handler whose non-empty path id matches a
stored row: 200 with the fixed success message, the matching rows
removed, and a repeated delete of the same id answering 404. -/
theorem tasksDelete_match (path s : String) (bd : Except Unit TaskBody)
    (db : Table TaskRow)
    (hs : extractId path "tasks" = some s) (hne : s ≠ "")
    (hm : (db.rows.filter fun r => idMatches s r.id) ≠ []) :
    tasksHandler ⟨"DELETE", path, bd⟩ false db =
      ({ statusCode := 200, body := .message "Task deleted successfully" },
       { db with rows := db.rows.filter fun r => !idMatches s r.id }, [.query]) ∧
    tasksHandler ⟨"DELETE", path, bd⟩ false
        { db with rows := db.rows.filter fun r => !idMatches s r.id } =
      ({ statusCode := 404, body := .jsonError "Task not found" },
       { db with rows := db.rows.filter fun r => !idMatches s r.id }, [.query]) := by
  have hid : idMissing (some s) = false := by
    simpa [idMissing] using hne
  constructor
  · cases hfil : db.rows.filter fun r => idMatches s r.id with
    | nil => exact absurd hfil hm
    | cons r0 rest => simp [tasksHandler, tasksTry, hid, runDelete, hs, hfil]
  · exact tasksDelete_noMatch path s bd _ hs hne
      (by
        intro r hr
        have := List.of_mem_filter hr
        simpa using this)

/-- A DELETE on the tenders handler whose non-empty path id matches a
stored row: 200 with the fixed success message, the matching rows
removed, and a repeated delete of the same id answering 404. -/
theorem tendersDelete_match (url : Option String) (pf : Bool) (path s : String)
    (bd : Except Unit TenderBody) (db : Table TenderRow)
    (hs : extractId path "tenders" = some s) (hne : s ≠ "")
    (hm : (db.rows.filter fun r => idMatches s r.id) ≠ []) :
    tendersHandler url true pf ⟨"DELETE", path, bd⟩ false db =
      ({ statusCode := 200, body := .message "Tender deleted successfully" },
       { db with rows := db.rows.filter fun r => !idMatches s r.id }, true, [.query]) ∧
    tendersHandler url true pf ⟨"DELETE", path, bd⟩ false
        { db with rows := db.rows.filter fun r => !idMatches s r.id } =
      ({ statusCode := 404, body := .jsonError "Tender not found" },
       { db with rows := db.rows.filter fun r => !idMatches s r.id }, true, [.query]) := by
  have hid : idMissing (some s) = false := by
    simpa [idMissing] using hne
  constructor
  · cases hfil : db.rows.filter fun r => idMatches s r.id with
    | nil => exact absurd hfil hm
    | cons r0 rest => simp [tendersHandler, tendersMain, tendersTry, hid, runDelete, hs, hfil]
  · exact tendersDelete_noMatch url pf path s bd _ hs hne
      (by
        intro r hr
        have := List.of_mem_filter hr
        simpa using this)

/-- A concrete stored task row used in closed instances. -/
def sampleTask : TaskRow :=
  { id := 1, description := some (.str "Ship report"),
    assigned_to := some (.str "Alex"), due_date := some (.str "2025-03-01"),
    status := some (.str "PENDING"), created_at := 3, updated_at := 3 }

/-- A second concrete stored task row, differing from `sampleTask` in
every client-visible field. -/
def sampleTask2 : TaskRow :=
  { id := 2, description := some (.str "File invoice"),
    assigned_to := some (.str "Sam"), due_date := some (.str "2025-04-01"),
    status := some (.str "SENT"), created_at := 5, updated_at := 5 }

/-- A concrete stored tender row used in closed instances. -/
def sampleTender : TenderRow :=
  { id := 1, tender_number := some (.str "T-01"),
    description := some (.str "Road works"), closing_date := some (.str "2025-06-01"),
    site_visits := some (.str "visit A"), created_at := 3, updated_at := 3 }

/-- C6 counterexample: the 200 response of a successful DELETE is the
fixed message `"Task deleted successfully"`; deleting two rows that
differ in every client-visible field (ids 1 and 2) produces identical
responses, so the response carries no identity information of the
deleted row, contrary to the claim. -/
theorem c6_counterexample :
    (tasksHandler ⟨"DELETE", "/tasks/1", .ok ⟨none, none, none, none⟩⟩ false
        { rows := [sampleTask], nextId := 3, now := 9 }).1 =
      { statusCode := 200, body := .message "Task deleted successfully" } ∧
    (tasksHandler ⟨"DELETE", "/tasks/2", .ok ⟨none, none, none, none⟩⟩ false
        { rows := [sampleTask2], nextId := 3, now := 9 }).1 =
      { statusCode := 200, body := .message "Task deleted successfully" } ∧
    (tasksHandler ⟨"DELETE", "/tasks/1", .ok ⟨none, none, none, none⟩⟩ false
          { rows := [sampleTask], nextId := 3, now := 9 }).1 =
      (tasksHandler ⟨"DELETE", "/tasks/2", .ok ⟨none, none, none, none⟩⟩ false
          { rows := [sampleTask2], nextId := 3, now := 9 }).1 := by
  refine ⟨by decide, by decide, by decide⟩

/-- C6 (amended): a DELETE with a non-empty path id deletes the
matching row and returns 200 with a fixed success message (no row
data); if no row matches it returns 404 with the table unchanged; and a
repeated delete of the same id returns 404. -/
theorem c6_delete_semantics :
    (∀ (path s : String) (bd : Except Unit TaskBody) (db : Table TaskRow),
        extractId path "tasks" = some s → s ≠ "" →
        ((∀ r ∈ db.rows, idMatches s r.id = false) →
          tasksHandler ⟨"DELETE", path, bd⟩ false db =
            ({ statusCode := 404, body := .jsonError "Task not found" }, db, [.query])) ∧
        ((db.rows.filter fun r => idMatches s r.id) ≠ [] →
          tasksHandler ⟨"DELETE", path, bd⟩ false db =
            ({ statusCode := 200, body := .message "Task deleted successfully" },
             { db with rows := db.rows.filter fun r => !idMatches s r.id }, [.query]) ∧
          tasksHandler ⟨"DELETE", path, bd⟩ false
              { db with rows := db.rows.filter fun r => !idMatches s r.id } =
            ({ statusCode := 404, body := .jsonError "Task not found" },
             { db with rows := db.rows.filter fun r => !idMatches s r.id }, [.query]))) ∧
    (∀ (url : Option String) (pf : Bool) (path s : String) (bd : Except Unit TenderBody)
        (db : Table TenderRow),
        extractId path "tenders" = some s → s ≠ "" →
        ((∀ r ∈ db.rows, idMatches s r.id = false) →
          tendersHandler url true pf ⟨"DELETE", path, bd⟩ false db =
            ({ statusCode := 404, body := .jsonError "Tender not found" }, db, true,
             [.query])) ∧
        ((db.rows.filter fun r => idMatches s r.id) ≠ [] →
          tendersHandler url true pf ⟨"DELETE", path, bd⟩ false db =
            ({ statusCode := 200, body := .message "Tender deleted successfully" },
             { db with rows := db.rows.filter fun r => !idMatches s r.id }, true,
             [.query]) ∧
          tendersHandler url true pf ⟨"DELETE", path, bd⟩ false
              { db with rows := db.rows.filter fun r => !idMatches s r.id } =
            ({ statusCode := 404, body := .jsonError "Tender not found" },
             { db with rows := db.rows.filter fun r => !idMatches s r.id }, true,
             [.query]))) :=
  ⟨fun path s bd db hs hne =>
     ⟨tasksDelete_noMatch path s bd db hs hne,
      fun hm => tasksDelete_match path s bd db hs hne hm⟩,
   fun url pf path s bd db hs hne =>
     ⟨tendersDelete_noMatch url pf path s bd db hs hne,
      fun hm => tendersDelete_match url pf path s bd db hs hne hm⟩⟩

/-- Witness for C6 (amended): deleting id 1 from a one-row tasks table
returns 200 with the fixed message and empties the table, and the
repeated delete returns 404; deleting id 99 from a one-row tenders
table returns 404 with the table unchanged. -/
theorem c6_delete_semantics_witness :
    (tasksHandler ⟨"DELETE", "/tasks/1", .ok ⟨none, none, none, none⟩⟩ false
        { rows := [sampleTask], nextId := 3, now := 9 } =
      ({ statusCode := 200, body := .message "Task deleted successfully" },
       { rows := [sampleTask].filter fun r => !idMatches "1" r.id, nextId := 3, now := 9 },
       [.query]) ∧
     tasksHandler ⟨"DELETE", "/tasks/1", .ok ⟨none, none, none, none⟩⟩ false
        { rows := [sampleTask].filter fun r => !idMatches "1" r.id, nextId := 3, now := 9 } =
      ({ statusCode := 404, body := .jsonError "Task not found" },
       { rows := [sampleTask].filter fun r => !idMatches "1" r.id, nextId := 3, now := 9 },
       [.query])) ∧
    tendersHandler none true false ⟨"DELETE", "/tenders/99", .ok ⟨none, none, none, none⟩⟩
        false
        { rows := [sampleTender], nextId := 3, now := 9 } =
      ({ statusCode := 404, body := .jsonError "Tender not found" },
       { rows := [sampleTender], nextId := 3, now := 9 }, true, [.query]) :=
  ⟨((c6_delete_semantics.1 "/tasks/1" "1" (.ok ⟨none, none, none, none⟩)
        { rows := [sampleTask], nextId := 3, now := 9 } (by decide) (by decide)).2
      (by decide)),
   ((c6_delete_semantics.2 none false "/tenders/99" "99" (.ok ⟨none, none, none, none⟩)
        { rows := [sampleTender], nextId := 3, now := 9 } (by decide) (by decide)).1
      (by decide))⟩

/-- C7: a GET without a path id returns 200 with every stored record as
a JSON array ordered by `created_at` descending — a permutation of the
full table (no filtering, no pagination), sorted newest-first — for
both resource handlers. -/
theorem c7_list_all_ordered :
    (∀ (path : String) (bd : Except Unit TaskBody) (db : Table TaskRow),
        extractId path "tasks" = none →
        tasksHandler ⟨"GET", path, bd⟩ false db =
          ({ statusCode := 200, body := .rows (selectTasksOrdered db.rows) }, db,
           [.query]) ∧
        (selectTasksOrdered db.rows).Perm db.rows ∧
        List.Sorted taskNewerFirst (selectTasksOrdered db.rows)) ∧
    (∀ (url : Option String) (pf : Bool) (path : String) (bd : Except Unit TenderBody)
        (db : Table TenderRow),
        extractId path "tenders" = none →
        tendersHandler url true pf ⟨"GET", path, bd⟩ false db =
          ({ statusCode := 200, body := .rows (selectTendersOrdered db.rows) }, db, true,
           [.query]) ∧
        (selectTendersOrdered db.rows).Perm db.rows ∧
        List.Sorted tenderNewerFirst (selectTendersOrdered db.rows)) := by
  constructor
  · intro path bd db _
    refine ⟨by simp [tasksHandler, tasksTry], ?_, ?_⟩
    · exact List.perm_insertionSort taskNewerFirst db.rows
    · exact List.sorted_insertionSort taskNewerFirst db.rows
  · intro url pf path bd db _
    refine ⟨by simp [tendersHandler, tendersMain, tendersTry], ?_, ?_⟩
    · exact List.perm_insertionSort tenderNewerFirst db.rows
    · exact List.sorted_insertionSort tenderNewerFirst db.rows

/-- Witness for C7: listing a two-row tasks table (creation times 3 and
5, stored older-first) answers 200 with the rows newest-first, a
permutation of the table, sorted. -/
theorem c7_list_all_ordered_witness :
    (tasksHandler ⟨"GET", "/tasks", .ok ⟨none, none, none, none⟩⟩ false
        { rows := [sampleTask, sampleTask2], nextId := 3, now := 9 } =
      ({ statusCode := 200,
         body := .rows (selectTasksOrdered [sampleTask, sampleTask2]) },
       { rows := [sampleTask, sampleTask2], nextId := 3, now := 9 }, [.query]) ∧
     (selectTasksOrdered [sampleTask, sampleTask2]).Perm [sampleTask, sampleTask2] ∧
     List.Sorted taskNewerFirst (selectTasksOrdered [sampleTask, sampleTask2])) ∧
    selectTasksOrdered [sampleTask, sampleTask2] = [sampleTask2, sampleTask] :=
  ⟨c7_list_all_ordered.1 "/tasks" (.ok ⟨none, none, none, none⟩)
      { rows := [sampleTask, sampleTask2], nextId := 3, now := 9 } (by decide),
   by decide⟩

/-- C8: any throw inside the dispatcher's try scope — a body-parse
failure or a failing storage call — is caught at the boundary and
answered with the single generic 500 response
`{ "error": "Internal server error" }`, leaving the table unchanged; a
malformed JSON body on POST is such a throw (raised before any storage
call), for both handlers. -/
theorem c8_catch_all_500 :
    (∀ (ev : Event TaskBody) (dbFail : Bool) (db : Table TaskRow),
        (tasksTry ev dbFail db).1 = .error () →
        tasksHandler ev dbFail db =
          ({ statusCode := 500, body := .jsonError "Internal server error" }, db,
           (tasksTry ev dbFail db).2)) ∧
    (∀ (path : String) (dbFail : Bool) (db : Table TaskRow),
        tasksTry ⟨"POST", path, .error ()⟩ dbFail db = (.error (), [])) ∧
    (∀ (ev : Event TenderBody) (url : Option String) (pf dbFail : Bool)
        (db : Table TenderRow),
        (tendersTry ev dbFail db).1 = .error () →
        tendersHandler url true pf ev dbFail db =
          ({ statusCode := 500, body := .jsonError "Internal server error" }, db, true,
           (tendersTry ev dbFail db).2)) ∧
    (∀ (path : String) (dbFail : Bool) (db : Table TenderRow),
        tendersTry ⟨"POST", path, .error ()⟩ dbFail db = (.error (), [])) := by
  refine ⟨?_, ?_, ?_, ?_⟩
  · intro ev dbFail db herr
    have hopt : ev.httpMethod ≠ "OPTIONS" := by
      intro h
      simp [tasksTry, h] at herr
    rcases hres : tasksTry ev dbFail db with ⟨res, fx⟩
    rw [hres] at herr
    cases res with
    | ok v => exact absurd herr (by simp)
    | error e => simp [tasksHandler, hopt, hres]
  · intro path dbFail db
    rfl
  · intro ev url pf dbFail db herr
    have hopt : ev.httpMethod ≠ "OPTIONS" := by
      intro h
      simp [tendersTry, h] at herr
    rcases hres : tendersTry ev dbFail db with ⟨res, fx⟩
    rw [hres] at herr
    cases res with
    | ok v => exact absurd herr (by simp)
    | error e => simp [tendersHandler, tendersMain, hopt, hres]
  · intro path dbFail db
    rfl

/-- Witness for C8: a POST with a malformed JSON body and a GET with a
failing storage call both produce exactly the generic 500 response. -/
theorem c8_catch_all_500_witness :
    tasksTry ⟨"POST", "/tasks", .error ()⟩ false
        { rows := [], nextId := 1, now := 0 } = (.error (), []) ∧
    tasksHandler ⟨"POST", "/tasks", .error ()⟩ false
        { rows := [], nextId := 1, now := 0 } =
      ({ statusCode := 500, body := .jsonError "Internal server error" },
       { rows := [], nextId := 1, now := 0 },
       (tasksTry ⟨"POST", "/tasks", .error ()⟩ false
          { rows := [], nextId := 1, now := 0 }).2) ∧
    tendersHandler (some "postgres:db") true false
        ⟨"GET", "/tenders", .ok ⟨none, none, none, none⟩⟩
        true { rows := [], nextId := 1, now := 0 } =
      ({ statusCode := 500, body := .jsonError "Internal server error" },
       { rows := [], nextId := 1, now := 0 }, true,
       (tendersTry (⟨"GET", "/tenders", .ok ⟨none, none, none, none⟩⟩ : Event TenderBody)
          true { rows := [], nextId := 1, now := 0 }).2) :=
  ⟨c8_catch_all_500.2.1 "/tasks" false { rows := [], nextId := 1, now := 0 },
   c8_catch_all_500.1 ⟨"POST", "/tasks", .error ()⟩ false
      { rows := [], nextId := 1, now := 0 } rfl,
   c8_catch_all_500.2.2.1 ⟨"GET", "/tenders", .ok ⟨none, none, none, none⟩⟩
      (some "postgres:db") false true { rows := [], nextId := 1, now := 0 } rfl⟩

/-- C3 counterexample: with `DATABASE_URL` unset, the GET request to
`/tasks` served by the tasks function is not answered with a
configuration-error response: the pool is created at module load and
the storage query is attempted — both appear in the effect trace,
refuting "without ever attempting to create or use a database
connection" — and the response is the generic 500
`"Internal server error"` when the query fails (a plain 200, were it to
succeed), never `"Database configuration error"`. -/
theorem c3_counterexample :
    (tasksService none ⟨"GET", "/tasks", .ok ⟨none, none, none, none⟩⟩ true
        { rows := [], nextId := 1, now := 0 }).1 =
      { statusCode := 500, body := .jsonError "Internal server error" } ∧
    (tasksService none ⟨"GET", "/tasks", .ok ⟨none, none, none, none⟩⟩ true
        { rows := [], nextId := 1, now := 0 }).1.body ≠
      .jsonError "Database configuration error" ∧
    Effect.poolCreate ∈
      (tasksService none ⟨"GET", "/tasks", .ok ⟨none, none, none, none⟩⟩ true
        { rows := [], nextId := 1, now := 0 }).2.2 ∧
    Effect.query ∈
      (tasksService none ⟨"GET", "/tasks", .ok ⟨none, none, none, none⟩⟩ true
        { rows := [], nextId := 1, now := 0 }).2.2 ∧
    (tasksService none ⟨"GET", "/tasks", .ok ⟨none, none, none, none⟩⟩ false
        { rows := [], nextId := 1, now := 0 }).1 =
      { statusCode := 200, body := .rows [] } ∧
    Effect.query ∈
      (tasksService none ⟨"GET", "/tasks", .ok ⟨none, none, none, none⟩⟩ false
        { rows := [], nextId := 1, now := 0 }).2.2 :=
  ⟨by decide, by decide, by decide, by decide, by decide, by decide⟩

/-- C3 (amended): only the tenders handler checks the connection
string: on a request with the pool uninitialized and `DATABASE_URL`
absent (or empty) it returns the 500 `"Database configuration error"`
response before any pool-constructor invocation and any query, leaving
the table untouched.  The tasks function performs no such check — its
pool is created at module load whatever the environment holds, and a
GET proceeds to the storage call. -/
theorem c3_amended_config_check :
    (∀ (url : Option String) (pf : Bool) (ev : Event TenderBody) (dbFail : Bool)
        (db : Table TenderRow),
        envFalsy url = true →
        tendersHandler url false pf ev dbFail db =
          ({ statusCode := 500, body := .jsonError "Database configuration error" },
           db, false, [])) ∧
    (∀ url : Option String, tasksModuleInit url = [.poolCreate]) ∧
    (∀ (url : Option String) (path : String) (bd : Except Unit TaskBody) (dbFail : Bool)
        (db : Table TaskRow),
        Effect.query ∈ (tasksService url ⟨"GET", path, bd⟩ dbFail db).2.2) := by
  refine ⟨?_, ?_, ?_⟩
  · intro url pf ev dbFail db h
    simp [tendersHandler, h]
  · intro url
    rfl
  · intro url path bd dbFail db
    cases dbFail <;> simp [tasksService, tasksHandler, tasksTry, tasksModuleInit]

/-- Witness for C3 (amended): a concrete first request to the tenders
function with `DATABASE_URL` unset (even with a throwing pool
constructor, which is never reached), and a concrete GET to the tasks
function with `DATABASE_URL` unset. -/
theorem c3_amended_config_check_witness :
    tendersHandler none false true ⟨"PUT", "/tenders/1", .ok ⟨none, none, none, none⟩⟩
        false { rows := [sampleTender], nextId := 2, now := 4 } =
      ({ statusCode := 500, body := .jsonError "Database configuration error" },
       { rows := [sampleTender], nextId := 2, now := 4 }, false, []) ∧
    tasksModuleInit none = [.poolCreate] ∧
    Effect.query ∈
      (tasksService none ⟨"GET", "/tasks", .ok ⟨none, none, none, none⟩⟩ true
        { rows := [], nextId := 1, now := 0 }).2.2 :=
  ⟨c3_amended_config_check.1 none true ⟨"PUT", "/tenders/1", .ok ⟨none, none, none, none⟩⟩
      false { rows := [sampleTender], nextId := 2, now := 4 } (by decide),
   c3_amended_config_check.2.1 none,
   c3_amended_config_check.2.2 none "/tasks" (.ok ⟨none, none, none, none⟩) true
      { rows := [], nextId := 1, now := 0 }⟩

/-- C4 counterexample: an OPTIONS request to the tenders handler on a
first invocation with `DATABASE_URL` unset is answered 500
`"Database configuration error"` — not 200, and not with an empty
body — because the lazy pool block runs before the OPTIONS branch. -/
theorem c4_counterexample :
    tendersHandler none false false ⟨"OPTIONS", "/tenders", .ok ⟨none, none, none, none⟩⟩
        false { rows := [], nextId := 1, now := 0 } =
      ({ statusCode := 500, body := .jsonError "Database configuration error" },
       { rows := [], nextId := 1, now := 0 }, false, []) ∧
    (tendersHandler none false false ⟨"OPTIONS", "/tenders", .ok ⟨none, none, none, none⟩⟩
        false { rows := [], nextId := 1, now := 0 }).1.statusCode ≠ 200 ∧
    (tendersHandler none false false ⟨"OPTIONS", "/tenders", .ok ⟨none, none, none, none⟩⟩
        false { rows := [], nextId := 1, now := 0 }).1.body ≠ .empty :=
  ⟨by decide, by decide, by decide⟩

/-- C4 (amended): an OPTIONS request to the tasks handler always
returns 200 with an empty body, issuing no storage call and leaving the
table unchanged.  On the tenders handler the lazy pool block runs
first: with the pool already initialized OPTIONS returns 200, empty
body, no effects; on a first invocation with `DATABASE_URL` present and
the pool constructor succeeding, the pool is created (no query is
issued) and OPTIONS then returns 200 with an empty body; on a first
invocation with `DATABASE_URL` present but the constructor throwing,
the handler returns the 500 `"Database connection error"` before
reaching the OPTIONS branch; on a first invocation with `DATABASE_URL`
absent it returns the 500 configuration error, likewise before the
OPTIONS branch. -/
theorem c4_amended_options :
    (∀ (path : String) (bd : Except Unit TaskBody) (dbFail : Bool) (db : Table TaskRow),
        tasksHandler ⟨"OPTIONS", path, bd⟩ dbFail db =
          ({ statusCode := 200, body := .empty }, db, [])) ∧
    (∀ (url : Option String) (pf : Bool) (path : String) (bd : Except Unit TenderBody)
        (dbFail : Bool) (db : Table TenderRow),
        tendersHandler url true pf ⟨"OPTIONS", path, bd⟩ dbFail db =
          ({ statusCode := 200, body := .empty }, db, true, [])) ∧
    (∀ (url : Option String) (path : String) (bd : Except Unit TenderBody) (dbFail : Bool)
        (db : Table TenderRow),
        envFalsy url = false →
        tendersHandler url false false ⟨"OPTIONS", path, bd⟩ dbFail db =
          ({ statusCode := 200, body := .empty }, db, true, [.poolCreate])) ∧
    (∀ (url : Option String) (ev : Event TenderBody) (dbFail : Bool)
        (db : Table TenderRow),
        envFalsy url = false →
        tendersHandler url false true ev dbFail db =
          ({ statusCode := 500, body := .jsonError "Database connection error" },
           db, false, [.poolCreate])) ∧
    (∀ (url : Option String) (pf : Bool) (ev : Event TenderBody) (dbFail : Bool)
        (db : Table TenderRow),
        envFalsy url = true →
        tendersHandler url false pf ev dbFail db =
          ({ statusCode := 500, body := .jsonError "Database configuration error" },
           db, false, [])) := by
  refine ⟨?_, ?_, ?_, ?_, ?_⟩
  · intro path bd dbFail db
    simp [tasksHandler]
  · intro url pf path bd dbFail db
    simp [tendersHandler, tendersMain]
  · intro url path bd dbFail db h
    simp [tendersHandler, tendersMain, h]
  · intro url ev dbFail db h
    simp [tendersHandler, h]
  · intro url pf ev dbFail db h
    simp [tendersHandler, h]

/-- Witness for C4 (amended) at concrete inputs, covering all five
cases. -/
theorem c4_amended_options_witness :
    tasksHandler ⟨"OPTIONS", "/tasks", .ok ⟨none, none, none, none⟩⟩ true
        { rows := [sampleTask], nextId := 2, now := 4 } =
      ({ statusCode := 200, body := .empty },
       { rows := [sampleTask], nextId := 2, now := 4 }, []) ∧
    tendersHandler (some "postgres:db") true true
        ⟨"OPTIONS", "/tenders", .ok ⟨none, none, none, none⟩⟩ true
        { rows := [sampleTender], nextId := 2, now := 4 } =
      ({ statusCode := 200, body := .empty },
       { rows := [sampleTender], nextId := 2, now := 4 }, true, []) ∧
    tendersHandler (some "postgres:db") false false
        ⟨"OPTIONS", "/tenders", .ok ⟨none, none, none, none⟩⟩ true
        { rows := [sampleTender], nextId := 2, now := 4 } =
      ({ statusCode := 200, body := .empty },
       { rows := [sampleTender], nextId := 2, now := 4 }, true, [.poolCreate]) ∧
    tendersHandler (some "postgres:db") false true
        ⟨"OPTIONS", "/tenders", .ok ⟨none, none, none, none⟩⟩ false
        { rows := [sampleTender], nextId := 2, now := 4 } =
      ({ statusCode := 500, body := .jsonError "Database connection error" },
       { rows := [sampleTender], nextId := 2, now := 4 }, false, [.poolCreate]) ∧
    tendersHandler none false false ⟨"GET", "/tenders", .ok ⟨none, none, none, none⟩⟩
        false { rows := [sampleTender], nextId := 2, now := 4 } =
      ({ statusCode := 500, body := .jsonError "Database configuration error" },
       { rows := [sampleTender], nextId := 2, now := 4 }, false, []) :=
  ⟨c4_amended_options.1 "/tasks" (.ok ⟨none, none, none, none⟩) true
      { rows := [sampleTask], nextId := 2, now := 4 },
   c4_amended_options.2.1 (some "postgres:db") true "/tenders"
      (.ok ⟨none, none, none, none⟩) true { rows := [sampleTender], nextId := 2, now := 4 },
   c4_amended_options.2.2.1 (some "postgres:db") "/tenders" (.ok ⟨none, none, none, none⟩)
      true { rows := [sampleTender], nextId := 2, now := 4 } (by decide),
   c4_amended_options.2.2.2.1 (some "postgres:db")
      ⟨"OPTIONS", "/tenders", .ok ⟨none, none, none, none⟩⟩ false
      { rows := [sampleTender], nextId := 2, now := 4 } (by decide),
   c4_amended_options.2.2.2.2 none false ⟨"GET", "/tenders", .ok ⟨none, none, none, none⟩⟩
      false { rows := [sampleTender], nextId := 2, now := 4 } (by decide)⟩
